import Mathlib

/-!
Verification of the `snowflake-demo` repository (`src/demo.py`).

The repository's only non-trivial logic is the `snowflake_cursor` context
manager: it connects to the external driver, opens a cursor, yields both to
the caller, handles `ProgrammingError` (two diagnostic prints, a rollback,
re-raise), and closes cursor then connection in a `finally` block.

We embed this control flow as a trace-producing function `runSession` over an
abstract `Driver` that says which external operations raise.  The external
driver's query behaviour (execution, describe, asynchronous submission,
batched fetch) lives outside this repository; those parts are modelled from
the spec and are marked as such.
-/

/-- The two error categories distinguished by `snowflake_cursor`:
the driver's `ProgrammingError` (carrying `errno`, `sqlstate`, `msg`,
`sfqid`) versus any other exception. -/
inductive SfErr where
  | programmingError (errno : Nat) (sqlstate : String) (msg : String) (sfqid : String)
  | otherError (tag : Nat)
deriving DecidableEq, Repr

/-- A value of a session parameter passed to `sc.connect` (string or integer). -/
inductive ParamVal where
  | str (s : String)
  | int (n : Nat)
deriving DecidableEq, Repr

/-- The `session_parameters` mapping of the `sc.connect` call in `snowflake_cursor`:
`QUERY_TAG` is `json.dumps(\x7b"user": "xiang"\x7d)` and
`STATEMENT_TIMEOUT_IN_SECONDS` is `60 * 5`. -/
def sessionParameters : List (String × ParamVal) :=
  [("QUERY_TAG", ParamVal.str "\x7b\"user\": \"xiang\"\x7d"),
   ("STATEMENT_TIMEOUT_IN_SECONDS", ParamVal.int (60 * 5))]

/-- Observable events of one scoped session.  An event records that the
corresponding external call was issued (it may still raise, as directed by
the `Driver`). -/
inductive Ev where
  | connect (connectionName : String) (params : List (String × ParamVal))
  | openCursor
  | bodyRun
  | printDefault (e : SfErr)
  | printCustom (s : String)
  | rollback
  | closeCursor
  | closeConn
deriving DecidableEq, Repr

/-- Which external driver operations raise (and with what), for one session. -/
structure Driver where
  connectErr : Option SfErr
  cursorErr : Option SfErr
  rollbackErr : Option SfErr
  curCloseErr : Option SfErr
  connCloseErr : Option SfErr
deriving DecidableEq, Repr

/-- The driver on which every external call succeeds. -/
def honestDriver : Driver := ⟨none, none, none, none, none⟩

/-- Outcome of the caller-supplied body of the `with` block. -/
inductive BodyResult where
  | ok
  | raises (e : SfErr)
deriving DecidableEq, Repr

/-- The customized diagnostic message built by `snowflake_cursor` from the
fields of a `ProgrammingError` (the `"Error ..."` format string at line 36). -/
def customMsg (errno : Nat) (sqlstate msg sfqid : String) : String :=
  "Error " ++ toString errno ++ " (" ++ sqlstate ++ "): " ++ msg ++
    " (" ++ sfqid ++ ")"

/-- The `try ... yield ... except ProgrammingError` part of `snowflake_cursor`:
run the body; on a `ProgrammingError` print the default and the customized
message, issue a rollback (which may itself raise) and re-raise the same
error; any other error is left pending unchanged.  Returns the events and
the pending exception entering the `finally` block. -/
def handleBody (rollbackErr : Option SfErr) : BodyResult → List Ev × Option SfErr
  | BodyResult.ok => ([Ev.bodyRun], none)
  | BodyResult.raises e =>
    match e with
    | SfErr.programmingError n s m q =>
      ([Ev.bodyRun, Ev.printDefault (SfErr.programmingError n s m q),
        Ev.printCustom (customMsg n s m q), Ev.rollback],
       match rollbackErr with
       | some e2 => some e2
       | none => some (SfErr.programmingError n s m q))
    | SfErr.otherError t => ([Ev.bodyRun], some (SfErr.otherError t))

/-- The `finally` block of `snowflake_cursor`: `cur.close()` then
`conn.close()`.  Python semantics: if `cur.close()` raises, `conn.close()`
is not reached; an exception raised in `finally` replaces the pending one. -/
def finallyRelease (curCloseErr connCloseErr : Option SfErr) (pending : Option SfErr) :
    List Ev × Option SfErr :=
  match curCloseErr with
  | some e => ([Ev.closeCursor], some e)
  | none =>
    match connCloseErr with
    | some e => ([Ev.closeCursor, Ev.closeConn], some e)
    | none => ([Ev.closeCursor, Ev.closeConn], pending)

/-- One scoped session of `snowflake_cursor`: connect with the named profile
`"dev"` and `sessionParameters`, open a cursor, run the body under the
`except`/`finally` logic.  Returns the event trace and the exception (if any)
that propagates to the caller.  Both acquisitions happen before the `try`,
so a failure in either skips the `finally` block entirely. -/
def runSession (d : Driver) (body : BodyResult) : List Ev × Option SfErr :=
  match d.connectErr with
  | some e => ([Ev.connect "dev" sessionParameters], some e)
  | none =>
    match d.cursorErr with
    | some e => ([Ev.connect "dev" sessionParameters, Ev.openCursor], some e)
    | none =>
      let hb := handleBody d.rollbackErr body
      let fin := finallyRelease d.curCloseErr d.connCloseErr hb.2
      (Ev.connect "dev" sessionParameters :: Ev.openCursor :: (hb.1 ++ fin.1), fin.2)

example :
    runSession honestDriver BodyResult.ok =
      ([Ev.connect "dev" sessionParameters, Ev.openCursor, Ev.bodyRun,
        Ev.closeCursor, Ev.closeConn], none) := rfl

/-- C1: for every scoped session whose acquisitions succeed and whose release
calls do not themselves raise, on every exit path of the scoped block (normal
completion, recoverable driver error, any other failure, even a failing
rollback) the trace ends with closing the cursor and then the connection,
and neither close occurs anywhere earlier — the open-to-closed transition
happens exactly once, never re-entrantly. -/
theorem snowflake_cursor_closes_once (d : Driver) (body : BodyResult)
    (hc : d.connectErr = none) (hk : d.cursorErr = none)
    (h1 : d.curCloseErr = none) (h2 : d.connCloseErr = none) :
    ∃ pre : List Ev,
      (runSession d body).1 = pre ++ [Ev.closeCursor, Ev.closeConn] ∧
      Ev.closeCursor ∉ pre ∧ Ev.closeConn ∉ pre := by
  obtain ⟨a, b, r, u, v⟩ := d
  simp only at hc hk h1 h2
  subst hc hk h1 h2
  cases body with
  | ok =>
    exact ⟨[Ev.connect "dev" sessionParameters, Ev.openCursor, Ev.bodyRun],
      rfl, by simp, by simp⟩
  | raises e =>
    cases e with
    | programmingError n s m q =>
      cases r with
      | none =>
        exact ⟨[Ev.connect "dev" sessionParameters, Ev.openCursor, Ev.bodyRun,
          Ev.printDefault (SfErr.programmingError n s m q),
          Ev.printCustom (customMsg n s m q), Ev.rollback], rfl, by simp, by simp⟩
      | some e2 =>
        exact ⟨[Ev.connect "dev" sessionParameters, Ev.openCursor, Ev.bodyRun,
          Ev.printDefault (SfErr.programmingError n s m q),
          Ev.printCustom (customMsg n s m q), Ev.rollback], rfl, by simp, by simp⟩
    | otherError t =>
      exact ⟨[Ev.connect "dev" sessionParameters, Ev.openCursor, Ev.bodyRun],
        rfl, by simp, by simp⟩

/-- Witness for C1 at the all-succeeding driver and a normally completing body. -/
theorem snowflake_cursor_closes_once_witness :
    ∃ pre : List Ev,
      (runSession honestDriver BodyResult.ok).1 = pre ++ [Ev.closeCursor, Ev.closeConn] ∧
      Ev.closeCursor ∉ pre ∧ Ev.closeConn ∉ pre :=
  snowflake_cursor_closes_once honestDriver BodyResult.ok rfl rfl rfl rfl

/-- C2: when the body raises a `ProgrammingError` (with any error code, SQL
state, message and query-tracking identifier) and the driver's calls succeed,
the session prints the default and the customized diagnostic messages, then
rolls back, then releases the cursor and the connection, and the caller
observes the same error kind with identical fields. -/
theorem programming_error_logged_rolled_back_reraised (n : Nat) (s m q : String) :
    runSession honestDriver (BodyResult.raises (SfErr.programmingError n s m q)) =
      ([Ev.connect "dev" sessionParameters, Ev.openCursor, Ev.bodyRun,
        Ev.printDefault (SfErr.programmingError n s m q),
        Ev.printCustom (customMsg n s m q),
        Ev.rollback, Ev.closeCursor, Ev.closeConn],
       some (SfErr.programmingError n s m q)) := rfl

/-- C3: when the body raises any failure that is not a `ProgrammingError`,
the session performs no logging and no rollback, releases the cursor and
the connection, and the identical exception propagates unchanged to the
caller. -/
theorem other_error_propagates_after_release (t : Nat) :
    runSession honestDriver (BodyResult.raises (SfErr.otherError t)) =
      ([Ev.connect "dev" sessionParameters, Ev.openCursor, Ev.bodyRun,
        Ev.closeCursor, Ev.closeConn],
       some (SfErr.otherError t)) := rfl

/-- C4 counterexample: at the concrete driver whose `cur.close()` raises
(everything else succeeding) and a normally completing body, the cursor
close is attempted but the connection close never is — refuting the claim
that both handles are always attempted to be released. -/
theorem cursor_close_failure_skips_conn_close_cex :
    Ev.closeCursor ∈
        (runSession ⟨none, none, none, some (SfErr.otherError 0), none⟩ BodyResult.ok).1 ∧
      Ev.closeConn ∉
        (runSession ⟨none, none, none, some (SfErr.otherError 0), none⟩ BodyResult.ok).1 := by
  constructor
  · simp [runSession, handleBody, finallyRelease]
  · simp [runSession, handleBody, finallyRelease]

/-- C4 (amended): during release at session exit the cursor close is
attempted first, and if closing the cursor raises an error the helper does
not attempt to close the connection; the cursor-close error propagates to
the caller instead. -/
theorem cursor_close_failure_skips_conn_close (d : Driver) (body : BodyResult) (e : SfErr)
    (hc : d.connectErr = none) (hk : d.cursorErr = none)
    (h : d.curCloseErr = some e) :
    Ev.closeCursor ∈ (runSession d body).1 ∧
    Ev.closeConn ∉ (runSession d body).1 ∧
    (runSession d body).2 = some e := by
  obtain ⟨a, b, r, u, v⟩ := d
  simp only at hc hk h
  subst hc hk h
  cases body with
  | ok => refine ⟨by simp [runSession, handleBody, finallyRelease], ?_, rfl⟩
          simp [runSession, handleBody, finallyRelease]
  | raises e2 =>
    cases e2 with
    | programmingError n s m q =>
      refine ⟨by simp [runSession, handleBody, finallyRelease], ?_, rfl⟩
      simp [runSession, handleBody, finallyRelease]
    | otherError t =>
      refine ⟨by simp [runSession, handleBody, finallyRelease], ?_, rfl⟩
      simp [runSession, handleBody, finallyRelease]

/-- Witness for the amended C4 at a concrete driver whose cursor close raises. -/
theorem cursor_close_failure_skips_conn_close_witness :
    Ev.closeCursor ∈
        (runSession ⟨none, none, none, some (SfErr.otherError 7), none⟩ BodyResult.ok).1 ∧
    Ev.closeConn ∉
        (runSession ⟨none, none, none, some (SfErr.otherError 7), none⟩ BodyResult.ok).1 ∧
    (runSession ⟨none, none, none, some (SfErr.otherError 7), none⟩ BodyResult.ok).2 =
      some (SfErr.otherError 7) :=
  cursor_close_failure_skips_conn_close
    ⟨none, none, none, some (SfErr.otherError 7), none⟩ BodyResult.ok
    (SfErr.otherError 7) rfl rfl rfl

/-- C5: every session starts with a connect call naming the external
connection profile `"dev"` and forwarding verbatim the session-parameter
mapping holding the tracing tag and the 300-second statement timeout. -/
theorem connect_uses_profile_and_forwards_parameters (d : Driver) (body : BodyResult) :
    (runSession d body).1.head? = some (Ev.connect "dev" sessionParameters) ∧
    sessionParameters =
      [("QUERY_TAG", ParamVal.str "\x7b\"user\": \"xiang\"\x7d"),
       ("STATEMENT_TIMEOUT_IN_SECONDS", ParamVal.int 300)] := by
  refine ⟨?_, rfl⟩
  obtain ⟨a, b, r, u, v⟩ := d
  cases a <;> cases b <;> rfl

/-- C10: if acquisition itself fails — the connect call raises, or cursor
creation raises after a successful connect — the helper performs no release
at all: neither close is ever attempted, so in the cursor-creation-failure
case the already-opened connection is never closed, and the acquisition
error propagates. -/
theorem acquisition_failure_performs_no_release (d : Driver) (body : BodyResult) (e : SfErr)
    (h : d.connectErr = some e ∨ (d.connectErr = none ∧ d.cursorErr = some e)) :
    Ev.closeCursor ∉ (runSession d body).1 ∧
    Ev.closeConn ∉ (runSession d body).1 ∧
    (runSession d body).2 = some e := by
  obtain ⟨a, b, r, u, v⟩ := d
  rcases h with h | ⟨h1, h2⟩
  · simp only at h
    subst h
    exact ⟨by simp [runSession], by simp [runSession], rfl⟩
  · simp only at h1 h2
    subst h1 h2
    exact ⟨by simp [runSession], by simp [runSession], rfl⟩

/-- Witness for C10 at a concrete driver whose cursor creation raises. -/
theorem acquisition_failure_performs_no_release_witness :
    Ev.closeCursor ∉
        (runSession ⟨none, some (SfErr.otherError 3), none, none, none⟩ BodyResult.ok).1 ∧
    Ev.closeConn ∉
        (runSession ⟨none, some (SfErr.otherError 3), none, none, none⟩ BodyResult.ok).1 ∧
    (runSession ⟨none, some (SfErr.otherError 3), none, none, none⟩ BodyResult.ok).2 =
      some (SfErr.otherError 3) :=
  acquisition_failure_performs_no_release
    ⟨none, some (SfErr.otherError 3), none, none, none⟩ BodyResult.ok
    (SfErr.otherError 3) (Or.inr ⟨rfl, rfl⟩)

/-!
The query-behaviour claims concern the external driver and service
(`snowflake.connector`), which are outside this repository.  The following
definitions model that collaborator from the spec's description of the
consumed operations (execute, fetch-one, describe-without-executing,
asynchronous execute with tracking identifier, blocking fetch-by-identifier,
batched tabular fetch).
-/

/-- A column value of a query result. -/
inductive Value where
  | int (n : Int)
  | str (s : String)
deriving DecidableEq, Repr

/-- Column metadata of a query result (the part the demo uses: the name). -/
structure Column where
  name : String
deriving DecidableEq, Repr

/-- A query result: ordered rows of column values paired with column metadata. -/
structure QueryResult where
  cols : List Column
  rows : List (List Value)
deriving DecidableEq, Repr

/-- The session environment held by the external service (the demo only
observes the current role). -/
structure Env where
  currentRole : String
deriving DecidableEq, Repr

/-- A nonempty all-digit character list. -/
def digitChars (cs : List Char) : Bool :=
  !cs.isEmpty && cs.all Char.isDigit

/-- The numeric value of a digit character list. -/
def digitsVal (cs : List Char) : Nat :=
  cs.foldl (fun a c => a * 10 + (c.toNat - 48)) 0

/-- Recognise a query of the form `select <integer literal>` (either case
of the keyword, optional trailing semicolon) and return the literal. -/
def parseSelectIntLit (q : String) : Option Nat :=
  let cs := q.data
  let rest : Option (List Char) :=
    if cs.take 7 = "select ".data then some (cs.drop 7)
    else if cs.take 7 = "SELECT ".data then some (cs.drop 7)
    else none
  match rest with
  | none => none
  | some r =>
    let body := if r.getLast? = some ';' then r.dropLast else r
    if digitChars body then some (digitsVal body) else none

example : parseSelectIntLit "select 1;" = some 1 := by decide
example : parseSelectIntLit "SELECT CURRENT_ROLE()" = none := by decide

/-- Modelled from the spec: the external service's evaluation of the query
texts the demo relies on (the driver itself is not in this repository).
Selecting an integer literal yields one row holding that literal, and
`SELECT CURRENT_ROLE()` yields one row holding the session's current role;
other texts are left unspecified (empty result). -/
def evalQuery (env : Env) (q : String) : QueryResult :=
  match parseSelectIntLit q with
  | some n => { cols := [{ name := toString n }], rows := [[Value.int (Int.ofNat n)]] }
  | none =>
    if q = "SELECT CURRENT_ROLE()" then
      { cols := [{ name := "CURRENT_ROLE()" }], rows := [[Value.str env.currentRole]] }
    else
      { cols := [], rows := [] }

/-- The live cursor: its current result description, rows, and the log of
query texts it has executed. -/
structure CursorState where
  description : List Column
  rows : List (List Value)
  executed : List String
deriving DecidableEq, Repr

/-- Modelled from the spec: synchronous `cur.execute` — run the query on the
external service and load its metadata and rows into the cursor. -/
def execute (env : Env) (c : CursorState) (q : String) : CursorState :=
  let r := evalQuery env q
  { description := r.cols, rows := r.rows, executed := c.executed ++ [q] }

/-- Modelled from the spec: `cur.fetchone` — the first remaining row, if any. -/
def fetchone (c : CursorState) : Option (List Value) :=
  c.rows.head?

/-- Modelled from the spec: `cur.describe` — return the column metadata of a
query without executing it; the cursor state is left untouched. -/
def describe (env : Env) (c : CursorState) (q : String) : List Column × CursorState :=
  ((evalQuery env q).cols, c)

/-- The dict-mapping of `src/demo.py` line 78: zip the column names from the
cursor description with the values of each row. -/
def dictRows (c : CursorState) : List (List (String × Value)) :=
  c.rows.map (fun row => List.zip (c.description.map Column.name) row)

/-- C6: after executing the query text `select 1;`, a fetch-one operation
returns a single row whose only column value is the literal integer `1`
(for every session environment and every prior cursor state). -/
theorem select_one_fetchone (env : Env) (c : CursorState) :
    fetchone (execute env c "select 1;") = some [Value.int 1] := rfl

/-- C7: the metadata-only describe of `SELECT CURRENT_ROLE()` returns exactly
one column descriptor, named `CURRENT_ROLE()`, without executing the query
(the cursor is unchanged), and that name equals the single key of every
dict-mapped row obtained by executing the same query and zipping the cursor
description's column names with the row values. -/
theorem describe_current_role_matches_dict_keys (env : Env) (c : CursorState) :
    (describe env c "SELECT CURRENT_ROLE()").1.map Column.name = ["CURRENT_ROLE()"] ∧
    (describe env c "SELECT CURRENT_ROLE()").2 = c ∧
    (dictRows (execute env c "SELECT CURRENT_ROLE()")).map
        (fun r => r.map Prod.fst) = [["CURRENT_ROLE()"]] := by
  exact ⟨rfl, rfl, rfl⟩

/-- Modelled from the spec: the external service's view of asynchronously
submitted queries — the texts of the submitted queries keyed by their
tracking identifiers, and the next fresh identifier. -/
structure Service where
  pending : List (Nat × String)
  nextId : Nat
deriving DecidableEq, Repr

/-- Modelled from the spec: `cur.execute_async` — submission returns a fresh
tracking identifier immediately and records only the query text; the
external service evaluates the query out of band. -/
def execute_async (s : Service) (q : String) : Nat × Service :=
  (s.nextId, { pending := (s.nextId, q) :: s.pending, nextId := s.nextId + 1 })

/-- Modelled from the spec: `cur.get_results_from_sfqid` — blocking retrieval
by tracking identifier; waits for the out-of-band execution and returns the
rows of the identified query. -/
def get_results_from_sfqid (env : Env) (s : Service) (qid : Nat) :
    Option (List (List Value)) :=
  (s.pending.lookup qid).map (fun q => (evalQuery env q).rows)

/-- C8: for every query text, asynchronous submission returns a tracking
identifier immediately — the service records only the query text, so no
results are available yet — and a subsequent blocking retrieval by that
identifier (even after a further submission, as in the demo) yields exactly
the rows that synchronous execution of the identical query text yields. -/
theorem async_retrieval_matches_sync (env : Env) (s : Service) (c : CursorState)
    (q q2 : String) :
    (execute_async s q).2.pending.lookup (execute_async s q).1 = some q ∧
    get_results_from_sfqid env (execute_async s q).2 (execute_async s q).1 =
      some (execute env c q).rows ∧
    get_results_from_sfqid env (execute_async (execute_async s q).2 q2).2
        (execute_async s q).1 = some (execute env c q).rows := by
  refine ⟨?_, ?_, ?_⟩
  · simp [execute_async, List.lookup]
  · simp [execute_async, get_results_from_sfqid, List.lookup, execute]
  · have hne : (s.nextId == s.nextId + 1) = false := by
      simp only [beq_eq_false_iff_ne, ne_eq]
      omega
    simp [execute_async, get_results_from_sfqid, List.lookup, execute, hne]

/-- Split a list into consecutive chunks of `n` elements (the last chunk may
be shorter; `n = 0` yields the whole list as one chunk). -/
def chunksOf {α : Type} (n : Nat) (l : List α) : List (List α) :=
  match l with
  | [] => []
  | x :: xs =>
    if n = 0 then [x :: xs]
    else (x :: xs).take n :: chunksOf n ((x :: xs).drop n)
termination_by l.length
decreasing_by
  simp only [List.length_drop, List.length_cons]
  omega

example : chunksOf 2 [1, 2, 3, 4, 5] = [[1, 2], [3, 4], [5]] := by
  simp [chunksOf]

/-- Concatenating the chunks of a list, in order, restores the list. -/
theorem chunksOf_flatten {α : Type} (n : Nat) (l : List α) :
    (chunksOf n l).flatten = l := by
  induction l using chunksOf.induct n with
  | case1 => simp [chunksOf]
  | case2 x xs h =>
    rw [chunksOf]
    simp [h]
  | case3 x xs h ih =>
    rw [chunksOf]
    simp only [h, if_false, List.flatten_cons, ih, List.take_append_drop]

/-- Modelled from the spec: `cur.fetch_pandas_all` — the whole result as one
table (we observe its rows of values). -/
def fetch_pandas_all (c : CursorState) : List (List Value) :=
  c.rows

/-- Modelled from the spec: `cur.fetch_pandas_batches` — the result rows
returned in order as tabular batches, each of at most `n` rows for the
driver-chosen batch size `n`. -/
def fetch_pandas_batches (n : Nat) (c : CursorState) : List (List (List Value)) :=
  chunksOf n c.rows

/-- C9: for every query (and every batch size the driver may choose),
fetching the executed result as tabular batches and concatenating the
batches in order yields the same row count and the same values as the
non-batched whole-result tabular fetch of the same query. -/
theorem batched_fetch_concat_eq_whole_fetch (n : Nat) (env : Env) (c : CursorState)
    (q : String) :
    (fetch_pandas_batches n (execute env c q)).flatten =
      fetch_pandas_all (execute env c q) ∧
    (fetch_pandas_batches n (execute env c q)).flatten.length =
      (fetch_pandas_all (execute env c q)).length := by
  refine ⟨chunksOf_flatten n _, ?_⟩
  rw [fetch_pandas_batches, chunksOf_flatten n _]
  rfl
